import Mathlib

/-!
# FacePass: verification of the indexing / search pipeline

Shallow embedding of the FacePass face-recognition photo-retrieval core:

* `models/face.py`            — the `FaceEmbedding` record;
* `models/photo_session.py`   — the external `PhotoSession` row;
* `services/indexing.py`      — `IndexingService.index_photo`,
  `index_photo_from_s3`, `index_batch`;
* `services/photo_indexing.py`— `PhotoIndexingService.extract_photo_id_from_s3_key`,
  `process_single_photo`, `index_session_photos`, `check_session_indexed`,
  plus the image-extension filter of `scan_session_photos`;
* `services/face_recognition.py` — `compare_embeddings`;
* `app/api/v1/endpoints/faces.py`— the `/search-session` endpoint
  `search_faces_in_session` (session validation, no-face result,
  auto-indexing, the pgvector query) and its `Form` defaults;
* `core/config.py`            — the `FACE_SIMILARITY_THRESHOLD` default.

Conventions of the embedding:

* float vectors are `List ℚ` (exact arithmetic stands in for IEEE floats);
* `np.linalg.norm(v)` is irrational in general, so functions that divide by
  a norm take the norm as an explicit argument `n`, used under hypotheses
  `0 ≤ n` and `n * n = l2normSq v` where a theorem needs a genuine norm;
* external effects (S3 download, model inference, the external session
  database) enter as explicit outcome values in an environment record:
  the functions below are the source's control flow over those outcomes;
* database state is the list of stored `face_embeddings` rows in insertion
  order; SQLAlchemy's `.first()` is `List.find?`, inserts append, and the
  pgvector query is filter / sort / limit over that list with the `<=>`
  operator an explicit distance-function parameter.
-/

/-- One row of the `face_embeddings` table (`models/face.py`, class
`FaceEmbedding`): only the columns the core reads back are modelled. -/
structure FaceEmbeddingRec where
  photo_id : String
  session_id : String
  embedding : List ℚ
  confidence : ℚ
  deriving Repr, DecidableEq

/-- The vector-database state: stored rows in insertion order. -/
abbrev Store := List FaceEmbeddingRec

/-- One row of the external `photo_sessions` table
(`models/photo_session.py`): the fields the search path reads. -/
structure PhotoSessionRec where
  name : String
  facepass_enabled : Bool
  deriving Repr, DecidableEq

/-- `PhotoSession.is_facepass_active` (`models/photo_session.py:59-66`):
`return self.facepass_enabled is True`. -/
def is_facepass_active (s : PhotoSessionRec) : Bool :=
  s.facepass_enabled

/-- Squared L2 norm of a vector, `Σ xᵢ²` (the square of
`np.linalg.norm(v)`). -/
def l2normSq (v : List ℚ) : ℚ :=
  (v.map (fun x => x * x)).sum

/-- The normalization step repeated verbatim at index time
(`services/indexing.py:56-58`, `services/photo_indexing.py:244-250`) and
at query time (`endpoints/faces.py:371-376`):
`norm = np.linalg.norm(v); if norm > 0: v = v / norm` — the zero-norm
vector is passed through unchanged (warning only, no exception).
`n` is the L2 norm of `v`, supplied as an argument. -/
def normalizeWithNorm (v : List ℚ) (n : ℚ) : List ℚ :=
  if 0 < n then v.map (fun x => x / n) else v

lemma l2normSq_nil : l2normSq [] = 0 := rfl

lemma l2normSq_cons (x : ℚ) (v : List ℚ) :
    l2normSq (x :: v) = x * x + l2normSq v := by
  simp [l2normSq]

/-- Dividing every coordinate by `n` divides the squared norm by `n²`
(also true for `n = 0`, where `x / 0 = 0` in `ℚ`). -/
lemma l2normSq_map_div (v : List ℚ) (n : ℚ) :
    l2normSq (v.map (fun x => x / n)) = l2normSq v / (n * n) := by
  induction v with
  | nil => simp [l2normSq]
  | cons x v ih =>
    simp only [List.map_cons, l2normSq_cons, ih]
    rw [div_mul_div_comm, div_add_div_same]

/-- C3. For every vector `v` whose L2 norm `n` is positive, the shared
normalization step returns `v / n`, and the result has (squared) L2 norm
exactly 1; for a vector of norm zero it returns the input unchanged and
raises nothing.  (`norm² = 1` gives `norm = 1`, well within the spec's
`1e-6` tolerance.) -/
theorem normalize_unit_norm_or_id (v : List ℚ) (n : ℚ)
    (h0 : 0 ≤ n) (hn : n * n = l2normSq v) :
    (0 < n →
      normalizeWithNorm v n = v.map (fun x => x / n) ∧
      l2normSq (normalizeWithNorm v n) = 1) ∧
    (l2normSq v = 0 → normalizeWithNorm v n = v) := by
  constructor
  · intro hpos
    have hne : n * n ≠ 0 := by positivity
    constructor
    · simp [normalizeWithNorm, hpos]
    · simp only [normalizeWithNorm, if_pos hpos]
      rw [l2normSq_map_div, ← hn, div_self hne]
  · intro hz
    have hnn : n * n = 0 := by rw [hn, hz]
    have : n = 0 := by
      rcases mul_eq_zero.mp hnn with h | h <;> exact h
    simp [normalizeWithNorm, this]

/-- Witness for C3: the theorem applied at `v = [3,4]`, `n = 5`
(positive norm) and at `v = [0,0]`, `n = 0` (zero norm). -/
theorem normalize_unit_norm_or_id_witness :
    (0 ≤ (5 : ℚ) ∧ (5 : ℚ) * 5 = l2normSq [3, 4] ∧
      normalizeWithNorm [3, 4] 5 = [3 / 5, 4 / 5] ∧
      l2normSq (normalizeWithNorm [3, 4] 5) = 1) ∧
    (l2normSq [(0 : ℚ), 0] = 0 ∧ normalizeWithNorm [(0 : ℚ), 0] 0 = [0, 0]) := by
  have h1 := normalize_unit_norm_or_id [3, 4] 5 (by norm_num)
    (by norm_num [l2normSq])
  have h2 := normalize_unit_norm_or_id [(0 : ℚ), 0] 0 (le_refl 0)
    (by norm_num [l2normSq])
  refine ⟨⟨by norm_num, by norm_num [l2normSq], ?_, (h1.1 (by norm_num)).2⟩,
    by norm_num [l2normSq], h2.2 (by norm_num [l2normSq])⟩
  have := (h1.1 (by norm_num)).1
  simpa using this

/-- Dot product `np.dot` of two vectors (zip-truncating, as numpy does
for equal-length vectors; all callers pass equal-length embeddings). -/
def dotQ (a b : List ℚ) : ℚ :=
  (List.zipWith (fun x y => x * y) a b).sum

/-- `FaceRecognitionService.compare_embeddings`
(`services/face_recognition.py:150-175`): cosine similarity rescaled from
`[-1, 1]` to `[0, 1]` by `(similarity + 1) / 2`; returns `0.0` when either
norm is zero.  `n1`, `n2` are the L2 norms of the two vectors. -/
def compare_embeddings (e1 e2 : List ℚ) (n1 n2 : ℚ) : ℚ :=
  if n1 = 0 ∨ n2 = 0 then 0
  else (dotQ e1 e2 / (n1 * n2) + 1) / 2

/-- The pgvector `<=>` cosine-distance operator on vectors with the given
norms: `1 - dot / (‖a‖ ‖b‖)`. -/
def cosineDistanceQ (a b : List ℚ) (na nb : ℚ) : ℚ :=
  1 - dotQ a b / (na * nb)

/-- The similarity computed by the search SQL
(`endpoints/faces.py:562-571`, `endpoints/indexing.py:465-475`):
`1 - (embedding <=> query)`. -/
def sqlSimilarity (a b : List ℚ) (na nb : ℚ) : ℚ :=
  1 - cosineDistanceQ a b na nb

lemma dotQ_self (v : List ℚ) : dotQ v v = l2normSq v := by
  induction v with
  | nil => rfl
  | cons x v ih =>
    simp only [dotQ, l2normSq, List.zipWith_cons_cons, List.map_cons,
      List.sum_cons] at ih ⊢
    rw [ih]

/-- C9, counterexample.  The cited similarity implementation
`compare_embeddings` returns `1/2` — not `0.0 ± 1e-6` — on the orthogonal
unit vectors `[1,0]` and `[0,1]` (whose L2 norms are `1`), because it
rescales cosine similarity by `(cos + 1) / 2` instead of computing
`1 - cosine_distance`. -/
theorem compare_embeddings_orthogonal_counterexample :
    l2normSq [(1 : ℚ), 0] = 1 ∧ l2normSq [(0 : ℚ), 1] = 1 ∧
    dotQ [(1 : ℚ), 0] [0, 1] = 0 ∧
    compare_embeddings [(1 : ℚ), 0] [0, 1] 1 1 = 1 / 2 ∧
    ¬ |compare_embeddings [(1 : ℚ), 0] [0, 1] 1 1 - 0| ≤ 1 / 1000000 := by
  have hc : compare_embeddings [(1 : ℚ), 0] [0, 1] 1 1 = 1 / 2 := by
    norm_num [compare_embeddings, dotQ]
  refine ⟨by norm_num [l2normSq], by norm_num [l2normSq],
    by norm_num [dotQ], hc, ?_⟩
  rw [hc, sub_zero, abs_of_pos (by norm_num)]
  norm_num

/-- C9, amended.  For any unit vector `v` (L2 norm 1), the self-similarity
is exactly `1` both under `compare_embeddings` and under the SQL
similarity `1 - cosine_distance`; for orthogonal unit vectors `u`, `w`,
the SQL similarity is exactly `0`, but `compare_embeddings` returns `1/2`
(its `(cos + 1)/2` rescaling maps cosine `0` to `1/2`). -/
theorem similarity_self_and_orthogonal (v u w : List ℚ)
    (hv : l2normSq v = 1) (hu : l2normSq u = 1) (hw : l2normSq w = 1)
    (horth : dotQ u w = 0) :
    compare_embeddings v v 1 1 = 1 ∧
    sqlSimilarity v v 1 1 = 1 ∧
    sqlSimilarity u w 1 1 = 0 ∧
    compare_embeddings u w 1 1 = 1 / 2 := by
  have hd : dotQ v v = 1 := by rw [dotQ_self, hv]
  refine ⟨?_, ?_, ?_, ?_⟩ <;>
    simp [compare_embeddings, sqlSimilarity, cosineDistanceQ, hd, horth] <;>
    norm_num

/-- Witness for C9's amended theorem: applied at `v = u = [1,0]`,
`w = [0,1]`. -/
theorem similarity_self_and_orthogonal_witness :
    (l2normSq [(1 : ℚ), 0] = 1 ∧ dotQ [(1 : ℚ), 0] [0, 1] = 0) ∧
    (compare_embeddings [(1 : ℚ), 0] [1, 0] 1 1 = 1 ∧
     sqlSimilarity [(1 : ℚ), 0] [1, 0] 1 1 = 1 ∧
     sqlSimilarity [(1 : ℚ), 0] [0, 1] 1 1 = 0 ∧
     compare_embeddings [(1 : ℚ), 0] [0, 1] 1 1 = 1 / 2) :=
  ⟨⟨by norm_num [l2normSq], by norm_num [dotQ]⟩,
    similarity_self_and_orthogonal [1, 0] [1, 0] [0, 1]
      (by norm_num [l2normSq]) (by norm_num [l2normSq])
      (by norm_num [l2normSq]) (by norm_num [dotQ])⟩

/-- Outcome of `FaceRecognitionService.extract_single_embedding` on some
image bytes (`services/face_recognition.py:123-148`): an exception
(`isValueError` distinguishes `ValueError` from `RuntimeError`/other), no
detected face (`(None, 0.0)`), or the first face's `(vector, confidence)`
together with the vector's L2 norm `n` (used by the normalization step). -/
inductive ExtractOutcome where
  | exc (isValueError : Bool) (msg : String)
  | noFace
  | ok (embedding : List ℚ) (confidence : ℚ) (n : ℚ)
  deriving Repr, DecidableEq

/-- The return value of `IndexingService.index_photo`:
`(success, confidence, faces_detected, error_message)`. -/
structure IndexResult where
  success : Bool
  confidence : Option ℚ
  faces_detected : ℕ
  error : Option String
  deriving Repr, DecidableEq

/-- The duplicate lookup
`db.query(FaceEmbedding).filter(photo_id == .., session_id == ..).first()`. -/
def findEmbedding (store : Store) (pid sid : String) : Option FaceEmbeddingRec :=
  store.find? (fun r => r.photo_id == pid && r.session_id == sid)

/-- The update branch of `index_photo` (`services/indexing.py:66-70`):
overwrite `embedding` and `confidence` of the first row matching
`(photo_id, session_id)`, leaving its position and identity in place. -/
def updateEmbedding (store : Store) (pid sid : String)
    (emb : List ℚ) (conf : ℚ) : Store :=
  match store with
  | [] => []
  | r :: rest =>
    if r.photo_id == pid && r.session_id == sid then
      { r with embedding := emb, confidence := conf } :: rest
    else r :: updateEmbedding rest pid sid emb conf

/-- `IndexingService.index_photo` (`services/indexing.py:28-89`): extract
the single face, normalize, then upsert keyed on `(photo_id, session_id)`;
the no-face case returns failure before any write, and an extractor
exception is caught, the transaction rolled back, and failure returned. -/
def index_photo (pid sid : String) (extract : ExtractOutcome)
    (store : Store) : IndexResult × Store :=
  match extract with
  | .exc _ msg => (⟨false, none, 0, some msg⟩, store)
  | .noFace => (⟨false, none, 0, some "No face detected"⟩, store)
  | .ok emb conf n =>
    let emb' := normalizeWithNorm emb n
    match findEmbedding store pid sid with
    | some _ => (⟨true, some conf, 1, none⟩, updateEmbedding store pid sid emb' conf)
    | none => (⟨true, some conf, 1, none⟩, store ++ [⟨pid, sid, emb', conf⟩])

/-- Outcome of `download_image(s3_key)` for one photo
(`services/indexing.py:110-122`): the download raises, returns falsy
data, or yields bytes whose extraction outcome is `extract`. -/
inductive S3Download where
  | exc (msg : String)
  | empty
  | ok (extract : ExtractOutcome)
  deriving Repr, DecidableEq

/-- `IndexingService.index_photo_from_s3` (`services/indexing.py:91-122`):
fetch from S3, then delegate to `index_photo`; either download failure is
reported as a failure for this photo without raising. -/
def index_photo_from_s3 (pid sid : String) (dl : S3Download)
    (store : Store) : IndexResult × Store :=
  match dl with
  | .exc msg => (⟨false, none, 0, some ("S3 download error: " ++ msg)⟩, store)
  | .empty => (⟨false, none, 0, some "Failed to download from S3"⟩, store)
  | .ok extract => index_photo pid sid extract store

/-- `IndexingService.index_batch` (`services/indexing.py:124-158`): loop
over `(photo_id, s3_key)` pairs in order, counting successes and
failures and recording `"{photo_id}: {error}"` per failed item; no item
aborts the rest.  Each pair carries the environment's download outcome
for its key. -/
def index_batch (sid : String) (photos : List (String × S3Download))
    (store : Store) : (ℕ × ℕ × List String) × Store :=
  match photos with
  | [] => ((0, 0, []), store)
  | (pid, dl) :: rest =>
    let step := index_photo_from_s3 pid sid dl store
    let recCall := index_batch sid rest step.2
    if step.1.success then
      ((recCall.1.1 + 1, recCall.1.2.1, recCall.1.2.2), recCall.2)
    else
      ((recCall.1.1, recCall.1.2.1 + 1,
        (pid ++ ": " ++ step.1.error.getD "None") :: recCall.1.2.2), recCall.2)

/-- C10.  Whenever `index_photo` or `index_photo_from_s3` reports
`success == False` (no face, download failure, or a caught exception),
the embedding store is left exactly as it was: the failing call neither
inserts, updates, nor deletes any record. -/
theorem index_photo_failure_leaves_store_unchanged
    (pid sid : String) (extract : ExtractOutcome) (dl : S3Download)
    (store : Store) :
    ((index_photo pid sid extract store).1.success = false →
      (index_photo pid sid extract store).2 = store) ∧
    ((index_photo_from_s3 pid sid dl store).1.success = false →
      (index_photo_from_s3 pid sid dl store).2 = store) := by
  constructor
  · intro h
    cases extract with
    | exc b msg => rfl
    | noFace => rfl
    | ok emb conf n =>
      exfalso
      simp only [index_photo] at h
      cases hf : findEmbedding store pid sid <;> simp [hf] at h
  · intro h
    cases dl with
    | exc msg => rfl
    | empty => rfl
    | ok extract =>
      cases extract with
      | exc b msg => rfl
      | noFace => rfl
      | ok emb conf n =>
        exfalso
        simp only [index_photo_from_s3, index_photo] at h
        cases hf : findEmbedding store pid sid <;> simp [hf] at h

/-- Witness for C10: a no-face extraction and an empty S3 download on a
one-row store, both failing and leaving the store untouched. -/
theorem index_photo_failure_leaves_store_unchanged_witness :
    ((index_photo "p1" "s1" .noFace [⟨"q", "s1", [1], 1⟩]).1.success = false ∧
      (index_photo "p1" "s1" .noFace [⟨"q", "s1", [1], 1⟩]).2 =
        [⟨"q", "s1", [1], 1⟩]) ∧
    ((index_photo_from_s3 "p1" "s1" .empty [⟨"q", "s1", [1], 1⟩]).1.success = false ∧
      (index_photo_from_s3 "p1" "s1" .empty [⟨"q", "s1", [1], 1⟩]).2 =
        [⟨"q", "s1", [1], 1⟩]) :=
  ⟨⟨rfl, (index_photo_failure_leaves_store_unchanged "p1" "s1" .noFace .empty
      [⟨"q", "s1", [1], 1⟩]).1 rfl⟩,
   ⟨rfl, (index_photo_failure_leaves_store_unchanged "p1" "s1" .noFace .empty
      [⟨"q", "s1", [1], 1⟩]).2 rfl⟩⟩

/-- A successfully extracted single-face download outcome, used to build
concrete batches. -/
def goodDownload : S3Download :=
  .ok (.ok [1, 0] (9 / 10) 1)

/-- A corrupt-image download outcome: the bytes download but the
extractor raises `ValueError` (`face_recognition.py:119-121` wraps any
decoding failure in `ValueError("Failed to process image: ...")`). -/
def corruptDownload : S3Download :=
  .ok (.exc true "Failed to process image: corrupt image")

/-- C4.  Batch indexing processes every item even when some fail: for any
batch, `indexed_count + failed_count` equals the number of items and one
error message is recorded per failed item; concretely, for a batch of 5
photos whose third is a corrupt image, `index_batch` reports
`indexed_count = 4`, `failed_count = 1`, and the single error message
names photo `p3`. -/
theorem index_batch_failure_isolation :
    (∀ (sid : String) (photos : List (String × S3Download)) (store : Store),
      (index_batch sid photos store).1.1 + (index_batch sid photos store).1.2.1 =
        photos.length ∧
      (index_batch sid photos store).1.2.2.length =
        (index_batch sid photos store).1.2.1) ∧
    (index_batch "S"
        [("p1", goodDownload), ("p2", goodDownload), ("p3", corruptDownload),
         ("p4", goodDownload), ("p5", goodDownload)] []).1 =
      (4, 1, ["p3: Failed to process image: corrupt image"]) := by
  constructor
  · intro sid photos
    induction photos with
    | nil => intro store; simp [index_batch]
    | cons hd rest ih =>
      intro store
      obtain ⟨pid, dl⟩ := hd
      have h := ih (index_photo_from_s3 pid sid dl store).2
      cases hs : (index_photo_from_s3 pid sid dl store).1.success <;>
        simp [index_batch, hs] <;> omega
  · rfl

/-- Python's `str.split(sep)` for a one-character separator, over the
character list of the string (always returns at least one group). -/
def splitOnChar (c : Char) : List Char → List (List Char)
  | [] => [[]]
  | x :: xs =>
    match splitOnChar c xs with
    | [] => [[]]
    | g :: gs => if x == c then [] :: g :: gs else (x :: g) :: gs

/-- Does `l` start with `pat`? -/
def leadsWith : List Char → List Char → Bool
  | [], _ => true
  | _ :: _, [] => false
  | p :: ps, x :: xs => p == x && leadsWith ps xs

/-- Python's `str.replace(pat, '')`: remove every (non-overlapping,
left-to-right) occurrence of `pat`.  Fuel-driven so that it reduces
structurally; fuel = input length suffices for non-empty `pat`. -/
def removePatAux (pat : List Char) : ℕ → List Char → List Char
  | 0, l => l
  | _ + 1, [] => []
  | fuel + 1, x :: xs =>
    if leadsWith pat (x :: xs) then
      removePatAux pat fuel (List.drop pat.length (x :: xs))
    else x :: removePatAux pat fuel xs

def removePat (pat : String) (l : List Char) : List Char :=
  removePatAux pat.data l.length l

/-- Python's `str.strip('{}')`: drop any leading and trailing `{` / `}`
characters. -/
def stripBraces (l : List Char) : List Char :=
  ((l.dropWhile fun c => c == '{' || c == '}').reverse.dropWhile
    fun c => c == '{' || c == '}').reverse

def isHexDigitCh (c : Char) : Bool :=
  c.isDigit || ('a' ≤ c && c ≤ 'f') || ('A' ≤ c && c ≤ 'F')

/-- The validation performed by Python's `uuid.UUID(photo_id)`
constructor on a canonical hex string: remove `urn:` and `uuid:`, strip
braces, drop hyphens, then require exactly 32 hexadecimal digits. -/
def isPythonUUID (s : String) : Bool :=
  let h := removePat "uuid:" (removePat "urn:" s.data)
  let h := (stripBraces h).filter fun c => !(c == '-')
  h.length == 32 && h.all isHexDigitCh

/-- `PhotoIndexingService.extract_photo_id_from_s3_key`
(`services/photo_indexing.py:141-182`): take the key's filename
(`split('/')[-1]`), cut at the first dot (`split('.')[0]`), then accept a
timestamp-hash token (contains `-`, longer than 10), a UUID, or any token
longer than 5 characters; otherwise `None`. -/
def extract_photo_id_from_s3_key (s3_key : String) : Option String :=
  let filename := (splitOnChar '/' s3_key.data).getLastD []
  let photo_id := (splitOnChar '.' filename).headD []
  if photo_id.any (fun c => c == '-') ∧ 10 < photo_id.length then
    some (String.mk photo_id)
  else if isPythonUUID (String.mk photo_id) then some (String.mk photo_id)
  else if 5 < photo_id.length then some (String.mk photo_id)
  else none

/-- One face detected in a photo: the extractor's `(vector, confidence)`
plus the vector's L2 norm (argument to the normalization step). -/
structure FaceDet where
  embedding : List ℚ
  confidence : ℚ
  norm : ℚ
  deriving Repr, DecidableEq

/-- Combined outcome of `download_image` + `get_embeddings` for one photo
inside `process_single_photo` (`services/photo_indexing.py:219-236`). -/
inductive FetchOutcome where
  | dlFail (msg : String)
  | extractFail (msg : String)
  | faces (fs : List FaceDet)
  deriving Repr, DecidableEq

/-- `PhotoIndexingService.process_single_photo`
(`services/photo_indexing.py:184-275`): derive the photo id, skip if a
record for `(photo_id, session_id)` already exists, download, extract,
and append **one new record per detected face** (no faces is a success
with no write).  Per-face database-save exceptions and the outer
rollback path are environment faults not reached in this model. -/
def process_single_photo (s3_key sid : String) (fetch : FetchOutcome)
    (store : Store) : (Bool × Option String) × Store :=
  match extract_photo_id_from_s3_key s3_key with
  | none =>
    ((false, some ("Could not extract photo ID from " ++ s3_key)), store)
  | some pid =>
    match findEmbedding store pid sid with
    | some _ => ((true, none), store)
    | none =>
      match fetch with
      | .dlFail msg =>
        ((false, some ("Failed to download " ++ s3_key ++ ": " ++ msg)), store)
      | .extractFail msg =>
        ((false,
          some ("Face extraction failed for " ++ s3_key ++ ": " ++ msg)), store)
      | .faces fs =>
        if fs.isEmpty then ((true, none), store)
        else
          ((true, none),
            store ++ fs.map fun f =>
              ⟨pid, sid, normalizeWithNorm f.embedding f.norm, f.confidence⟩)

/-- Number of stored rows for one `(photo_id, session_id)` pair. -/
def countPair (store : Store) (pid sid : String) : ℕ :=
  (store.filter fun r => r.photo_id == pid && r.session_id == sid).length

/-- The in-place update keeps every row's key fields, hence all pair
counts. -/
lemma countPair_updateEmbedding (store : Store) (pid sid pid' sid' : String)
    (emb : List ℚ) (conf : ℚ) :
    countPair (updateEmbedding store pid sid emb conf) pid' sid' =
      countPair store pid' sid' := by
  induction store with
  | nil => rfl
  | cons r rest ih =>
    by_cases hr : (r.photo_id == pid && r.session_id == sid) = true
    · simp only [updateEmbedding, hr, if_true, countPair, List.filter_cons]
      by_cases hr' : (r.photo_id == pid' && r.session_id == sid') = true <;>
        simp [hr']
    · simp only [updateEmbedding, hr, if_false, countPair, List.filter_cons]
      by_cases hr' : (r.photo_id == pid' && r.session_id == sid') = true <;>
        simp [hr', countPair] at ih ⊢ <;> omega

/-- No stored row matches `(pid, sid)` exactly when the duplicate lookup
comes back empty. -/
lemma findEmbedding_eq_none_iff (store : Store) (pid sid : String) :
    findEmbedding store pid sid = none ↔ countPair store pid sid = 0 := by
  simp [findEmbedding, countPair, List.find?_eq_none, List.length_eq_zero,
    List.filter_eq_nil_iff]

lemma countPair_append (s1 s2 : Store) (pid sid : String) :
    countPair (s1 ++ s2) pid sid = countPair s1 pid sid + countPair s2 pid sid := by
  simp [countPair, List.filter_append]

lemma countPair_singleton_self (pid sid : String) (emb : List ℚ) (conf : ℚ) :
    countPair [⟨pid, sid, emb, conf⟩] pid sid = 1 := by
  simp [countPair, List.filter_cons]

lemma findEmbedding_append_singleton_self (store : Store) (pid sid : String)
    (emb : List ℚ) (conf : ℚ) (h : findEmbedding store pid sid = none) :
    findEmbedding (store ++ [⟨pid, sid, emb, conf⟩]) pid sid =
      some ⟨pid, sid, emb, conf⟩ := by
  simp only [findEmbedding] at h ⊢
  rw [List.find?_append, h]
  simp

/-- Key of the C1 counterexample: a preview key whose filename is a
timestamp-hash token. -/
def cxKey : String := "production/photos/sess-1/previews/1769586652601-3880.jpg"

/-- Fetch outcome of the C1 counterexample: the downloaded photo contains
two detected faces. -/
def cxFetch : FetchOutcome :=
  .faces [⟨[1, 0], 9 / 10, 1⟩, ⟨[0, 1], 8 / 10, 1⟩]

/-- C1, counterexample.  `process_single_photo` — one of the two cited
single-photo indexing operations — stores one record per detected face:
on a photo with two faces it inserts **two** records with the same
`(photo_id, session_id)` in a single call, and a second identical call
skips (leaving both records), so the store ends with 2 ≠ 1 records for
the pair. -/
theorem process_single_photo_duplicate_counterexample :
    extract_photo_id_from_s3_key cxKey = some "1769586652601-3880" ∧
    countPair (process_single_photo cxKey "sess-1" cxFetch []).2
      "1769586652601-3880" "sess-1" = 2 ∧
    (process_single_photo cxKey "sess-1" cxFetch
        (process_single_photo cxKey "sess-1" cxFetch []).2).2 =
      (process_single_photo cxKey "sess-1" cxFetch []).2 ∧
    (2 : ℕ) ≠ 1 :=
  ⟨by decide, by decide, rfl, by decide⟩

/-- C1, amended.  `IndexingService.index_photo` is a true upsert: it
preserves the at-most-one-record-per-pair invariant, and calling it twice
with the same `(photo_id, session_id)` and the same image bytes (hence
the same extraction outcome) leaves exactly one stored record for the
pair — the second call updating it in place.
`PhotoIndexingService.process_single_photo` instead skips entirely when a
record for the pair exists (returning success and leaving the store
unchanged), and otherwise appends one record per detected face, so its
per-pair record count equals the number of faces in the photo, not 1. -/
theorem index_photo_upsert_process_single_photo_skip :
    (∀ (pid sid : String) (ex : ExtractOutcome) (store : Store),
      countPair store pid sid ≤ 1 →
      countPair (index_photo pid sid ex store).2 pid sid ≤ 1) ∧
    (∀ (pid sid : String) (emb : List ℚ) (conf n : ℚ) (store : Store),
      countPair store pid sid = 0 →
      countPair (index_photo pid sid (.ok emb conf n) store).2 pid sid = 1 ∧
      countPair (index_photo pid sid (.ok emb conf n)
          (index_photo pid sid (.ok emb conf n) store).2).2 pid sid = 1) ∧
    (∀ (key sid : String) (fetch : FetchOutcome) (store : Store)
      (pid : String) (r : FaceEmbeddingRec),
      extract_photo_id_from_s3_key key = some pid →
      findEmbedding store pid sid = some r →
      (process_single_photo key sid fetch store).2 = store ∧
      (process_single_photo key sid fetch store).1 = (true, none)) ∧
    (∀ (key sid : String) (fetch : FetchOutcome) (store : Store)
      (pid : String) (fs : List FaceDet),
      extract_photo_id_from_s3_key key = some pid →
      findEmbedding store pid sid = none →
      fetch = .faces fs → fs ≠ [] →
      countPair (process_single_photo key sid fetch store).2 pid sid =
        countPair store pid sid + fs.length) := by
  refine ⟨?_, ?_, ?_, ?_⟩
  · intro pid sid ex store h
    cases ex with
    | exc b msg => exact h
    | noFace => exact h
    | ok emb conf n =>
      simp only [index_photo]
      cases hf : findEmbedding store pid sid with
      | none =>
        have h0 : countPair store pid sid = 0 :=
          (findEmbedding_eq_none_iff store pid sid).mp hf
        simp [countPair_append, h0, countPair_singleton_self]
      | some r => simp [countPair_updateEmbedding, h]
  · intro pid sid emb conf n store h
    have hf : findEmbedding store pid sid = none :=
      (findEmbedding_eq_none_iff store pid sid).mpr h
    have h1 : countPair (index_photo pid sid (.ok emb conf n) store).2 pid sid = 1 := by
      simp [index_photo, hf, countPair_append, h, countPair_singleton_self]
    refine ⟨h1, ?_⟩
    have hstore2 : (index_photo pid sid (.ok emb conf n) store).2 =
        store ++ [⟨pid, sid, normalizeWithNorm emb n, conf⟩] := by
      simp [index_photo, hf]
    rw [hstore2] at h1 ⊢
    rw [index_photo]
    rw [findEmbedding_append_singleton_self store pid sid _ _ hf]
    simpa [countPair_updateEmbedding] using h1
  · intro key sid fetch store pid r hpid hfind
    simp [process_single_photo, hpid, hfind]
  · intro key sid fetch store pid fs hpid hfind hfetch hne
    subst hfetch
    simp only [process_single_photo, hpid, hfind, List.isEmpty_eq_true, hne,
      if_false]
    rw [countPair_append]
    congr 1
    simp only [countPair, List.filter_map]
    rw [List.filter_eq_self.mpr]
    · simp
    · intro f _
      simp

/-- Witness for C1's amended theorem: a one-face upsert indexed twice on
an empty store ends with exactly one record, and a skip call on a
one-record store changes nothing. -/
theorem index_photo_upsert_process_single_photo_skip_witness :
    (countPair [] "1769586652601-3880" "sess-1" = 0 ∧
      countPair (index_photo "1769586652601-3880" "sess-1"
          (.ok [1, 0] (9 / 10) 1) []).2 "1769586652601-3880" "sess-1" = 1 ∧
      countPair (index_photo "1769586652601-3880" "sess-1"
          (.ok [1, 0] (9 / 10) 1)
          (index_photo "1769586652601-3880" "sess-1"
            (.ok [1, 0] (9 / 10) 1) []).2).2 "1769586652601-3880" "sess-1" = 1) ∧
    (extract_photo_id_from_s3_key cxKey = some "1769586652601-3880" ∧
      findEmbedding [⟨"1769586652601-3880", "sess-1", [1], 1⟩]
          "1769586652601-3880" "sess-1" =
        some ⟨"1769586652601-3880", "sess-1", [1], 1⟩ ∧
      (process_single_photo cxKey "sess-1" cxFetch
          [⟨"1769586652601-3880", "sess-1", [1], 1⟩]).2 =
        [⟨"1769586652601-3880", "sess-1", [1], 1⟩]) :=
  ⟨⟨by decide,
    (index_photo_upsert_process_single_photo_skip.2.1 "1769586652601-3880"
      "sess-1" [1, 0] (9 / 10) 1 [] (by decide)).1,
    (index_photo_upsert_process_single_photo_skip.2.1 "1769586652601-3880"
      "sess-1" [1, 0] (9 / 10) 1 [] (by decide)).2⟩,
   by decide, by decide,
   (index_photo_upsert_process_single_photo_skip.2.2.1 cxKey "sess-1" cxFetch
      [⟨"1769586652601-3880", "sess-1", [1], 1⟩] "1769586652601-3880"
      ⟨"1769586652601-3880", "sess-1", [1], 1⟩ (by decide) (by decide)).1⟩

/-- The hardcoded default of the `threshold` form field of the
`/search-session` endpoint: `threshold: float = Form(0.7, ...)`
(`endpoints/faces.py:275`). -/
def SEARCH_SESSION_THRESHOLD_DEFAULT : ℚ := 7 / 10

/-- The configured default of `Settings.FACE_SIMILARITY_THRESHOLD`
(`core/config.py:65`): `Field(default=0.5, ...)`. -/
def FACE_SIMILARITY_THRESHOLD_default : ℚ := 1 / 2

/-- Effective threshold of the `/search-session` endpoint
(`endpoints/faces.py:271-279`): FastAPI substitutes the `Form(0.7)`
literal when the caller omits the field; the settings object is never
consulted. -/
def effectiveThresholdSearchSession (supplied : Option ℚ) : ℚ :=
  supplied.getD SEARCH_SESSION_THRESHOLD_DEFAULT

/-- Effective threshold of the other search endpoint, `/search` in
`endpoints/indexing.py:313,370-374`: `Form(None)` then
`if threshold is None: threshold = settings.FACE_SIMILARITY_THRESHOLD`. -/
def effectiveThresholdSearchDb (supplied : Option ℚ)
    (settingsThreshold : ℚ) : ℚ :=
  match supplied with
  | none => settingsThreshold
  | some t => t

/-- C7, counterexample.  When the caller omits `threshold`, the cited
`/search-session` endpoint filters at the hardcoded form default `0.7`,
which differs from the configured `FACE_SIMILARITY_THRESHOLD` default
`0.5` — the setting is not what determines the effective threshold. -/
theorem search_session_threshold_default_counterexample :
    effectiveThresholdSearchSession none = 7 / 10 ∧
    FACE_SIMILARITY_THRESHOLD_default = 1 / 2 ∧
    effectiveThresholdSearchSession none ≠ FACE_SIMILARITY_THRESHOLD_default := by
  refine ⟨rfl, rfl, ?_⟩
  norm_num [effectiveThresholdSearchSession, SEARCH_SESSION_THRESHOLD_DEFAULT,
    FACE_SIMILARITY_THRESHOLD_default]

/-- C7, amended.  With no caller-supplied threshold the `/search-session`
endpoint uses the hardcoded literal `0.7` from its form-field default and
never reads `FACE_SIMILARITY_THRESHOLD`; only the separate `/search`
endpoint (`endpoints/indexing.py`) falls back to the configured
`FACE_SIMILARITY_THRESHOLD` when the threshold is omitted. -/
theorem search_threshold_defaults (t settingsThreshold : ℚ) :
    effectiveThresholdSearchSession none = 7 / 10 ∧
    effectiveThresholdSearchSession (some t) = t ∧
    effectiveThresholdSearchDb none settingsThreshold = settingsThreshold ∧
    effectiveThresholdSearchDb (some t) settingsThreshold = t :=
  ⟨rfl, rfl, rfl, rfl⟩

section KeySort

variable {α : Type} (key : α → ℚ)

/-- Stable insertion into a list kept ascending by `key` (the model of
SQL `ORDER BY key ASC`). -/
def insAsc (a : α) : List α → List α
  | [] => [a]
  | b :: l => if key a ≤ key b then a :: b :: l else b :: insAsc a l

/-- Stable ascending sort by `key`. -/
def sortAsc : List α → List α
  | [] => []
  | a :: l => insAsc key a (sortAsc l)

lemma mem_insAsc (a x : α) (l : List α) :
    x ∈ insAsc key a l ↔ x = a ∨ x ∈ l := by
  induction l with
  | nil => simp [insAsc]
  | cons b m ih =>
    by_cases h : key a ≤ key b
    · simp [insAsc, h]
    · simp [insAsc, h, ih]
      tauto

lemma mem_sortAsc (x : α) (l : List α) : x ∈ sortAsc key l ↔ x ∈ l := by
  induction l with
  | nil => simp [sortAsc]
  | cons a m ih => simp [sortAsc, mem_insAsc, ih]

lemma insAsc_eq_cons (a : α) (l : List α) (h : ∀ x ∈ l, key a ≤ key x) :
    insAsc key a l = a :: l := by
  cases l with
  | nil => rfl
  | cons b m => simp [insAsc, h b (by simp)]

lemma pairwise_insAsc (a : α) (l : List α)
    (h : l.Pairwise fun u v => key u ≤ key v) :
    (insAsc key a l).Pairwise fun u v => key u ≤ key v := by
  induction l with
  | nil => simp [insAsc]
  | cons b m ih =>
    rcases List.pairwise_cons.mp h with ⟨hb, hm⟩
    by_cases hab : key a ≤ key b
    · rw [insAsc, if_pos hab]
      refine List.pairwise_cons.mpr ⟨?_, h⟩
      intro x hx
      rcases List.mem_cons.mp hx with rfl | hx
      · exact hab
      · exact le_trans hab (hb x hx)
    · rw [insAsc, if_neg hab]
      refine List.pairwise_cons.mpr ⟨?_, ih hm⟩
      intro x hx
      rcases (mem_insAsc key a x m).mp hx with rfl | hx
      · exact le_of_not_le hab
      · exact hb x hx

lemma pairwise_sortAsc (l : List α) :
    (sortAsc key l).Pairwise fun u v => key u ≤ key v := by
  induction l with
  | nil => simp [sortAsc]
  | cons a m ih => exact pairwise_insAsc key a (sortAsc key m) ih

lemma filter_insAsc (p : α → Bool) (a : α) (l : List α)
    (h : l.Pairwise fun u v => key u ≤ key v) :
    (insAsc key a l).filter p =
      if p a then insAsc key a (l.filter p) else l.filter p := by
  induction l with
  | nil =>
    cases hp : p a <;> simp [insAsc, List.filter_cons, hp]
  | cons b m ih =>
    rcases List.pairwise_cons.mp h with ⟨hb, hm⟩
    by_cases hab : key a ≤ key b
    · rw [insAsc, if_pos hab]
      cases hp : p a with
      | false =>
        rw [List.filter_cons_of_neg (by simp [hp]), if_neg (by simp)]
      | true =>
        rw [List.filter_cons_of_pos (by simp [hp]), if_pos rfl]
        refine (insAsc_eq_cons key a ((b :: m).filter p) ?_).symm
        intro x hx
        rcases List.mem_cons.mp (List.mem_of_mem_filter hx) with rfl | hx2
        · exact hab
        · exact le_trans hab (hb x hx2)
    · rw [insAsc, if_neg hab]
      cases hpb : p b with
      | false =>
        rw [List.filter_cons_of_neg (by simp [hpb]),
          List.filter_cons_of_neg (by simp [hpb])]
        exact ih hm
      | true =>
        rw [List.filter_cons_of_pos (by simp [hpb]),
          List.filter_cons_of_pos (by simp [hpb]), ih hm]
        cases hp : p a with
        | false => rw [if_neg (by simp), if_neg (by simp)]
        | true => rw [if_pos rfl, if_pos rfl, insAsc, if_neg hab]

lemma sortAsc_filter (p : α → Bool) (l : List α) :
    sortAsc key (l.filter p) = (sortAsc key l).filter p := by
  induction l with
  | nil => rfl
  | cons a m ih =>
    cases hp : p a with
    | false =>
      rw [List.filter_cons_of_neg (by simp [hp]), ih]
      simp only [sortAsc]
      rw [filter_insAsc key p a (sortAsc key m) (pairwise_sortAsc key m), hp]
      simp
    | true =>
      rw [List.filter_cons_of_pos (by simp [hp])]
      simp only [sortAsc]
      rw [ih, filter_insAsc key p a (sortAsc key m) (pairwise_sortAsc key m),
        hp]
      simp

lemma filter_eq_takeWhile_of_mono (p : α → Bool)
    (hmono : ∀ u v : α, key u ≤ key v → p v = true → p u = true)
    (l : List α) (h : l.Pairwise fun u v => key u ≤ key v) :
    l.filter p = l.takeWhile p := by
  induction l with
  | nil => rfl
  | cons a m ih =>
    rcases List.pairwise_cons.mp h with ⟨ha, hm⟩
    cases hp : p a with
    | true =>
      rw [List.filter_cons_of_pos (by simp [hp]),
        List.takeWhile_cons_of_pos (by simp [hp]), ih hm]
    | false =>
      rw [List.filter_cons_of_neg (by simp [hp]),
        List.takeWhile_cons_of_neg (by simp [hp])]
      refine List.filter_eq_nil_iff.mpr ?_
      intro x hx hpx
      have hpa := hmono a x (ha x hx) hpx
      rw [hpa] at hp
      exact Bool.noConfusion hp

end KeySort

/-- The session search SQL (`endpoints/faces.py:562-581`, and the
order-equivalent `ORDER BY similarity DESC` variant in
`endpoints/indexing.py:465-485`): rows scoped to `session_id`, kept when
`1 - (embedding <=> query) >= threshold`, ordered by `embedding <=> query`
ascending (= similarity descending), limited, and returned as
`(photo_id, similarity)`.  `dist` is the store's `<=>` operator. -/
def queryNearest (store : Store) (sid : String)
    (dist : List ℚ → List ℚ → ℚ) (q : List ℚ) (threshold : ℚ)
    (lim : ℕ) : List (String × ℚ) :=
  (((sortAsc (fun r => dist r.embedding q)
      (store.filter fun r =>
        r.session_id == sid && decide (threshold ≤ 1 - dist r.embedding q))).take
    lim).map fun r => (r.photo_id, 1 - dist r.embedding q))

/-- C8.  For a fixed session, query vector and limit: raising the
threshold from `t1` to `t2 ≥ t1` only shrinks the result set (every
`(photo_id, similarity)` returned at `t2` is returned at `t1`); and every
result list has all similarities `≥` the requested threshold, is ordered
by similarity descending, and has length `≤ limit`. -/
theorem query_nearest_threshold_monotone_sorted (store : Store)
    (sid : String) (dist : List ℚ → List ℚ → ℚ) (q : List ℚ)
    (t1 t2 : ℚ) (lim : ℕ) (h12 : t1 ≤ t2) :
    (∀ m ∈ queryNearest store sid dist q t2 lim,
      m ∈ queryNearest store sid dist q t1 lim) ∧
    (∀ m ∈ queryNearest store sid dist q t1 lim, t1 ≤ m.2) ∧
    (queryNearest store sid dist q t1 lim).Pairwise
      (fun m1 m2 => m2.2 ≤ m1.2) ∧
    (queryNearest store sid dist q t1 lim).length ≤ lim := by
  have hpt : ∀ r : FaceEmbeddingRec,
      (decide (t2 ≤ 1 - dist r.embedding q) &&
        ((r.session_id == sid) && decide (t1 ≤ 1 - dist r.embedding q))) =
      ((r.session_id == sid) && decide (t2 ≤ 1 - dist r.embedding q)) := by
    intro r
    cases h2 : decide (t2 ≤ 1 - dist r.embedding q) with
    | false => simp
    | true =>
      have ht2 : t2 ≤ 1 - dist r.embedding q := of_decide_eq_true h2
      have ht1 : decide (t1 ≤ 1 - dist r.embedding q) = true :=
        decide_eq_true (le_trans h12 ht2)
      simp [ht1]
  have hfil :
      (store.filter fun r =>
        r.session_id == sid && decide (t1 ≤ 1 - dist r.embedding q)).filter
        (fun r => decide (t2 ≤ 1 - dist r.embedding q)) =
      store.filter fun r =>
        r.session_id == sid && decide (t2 ≤ 1 - dist r.embedding q) := by
    rw [List.filter_filter]
    exact List.filter_congr fun r _ => hpt r
  have hsorted := pairwise_sortAsc (fun r : FaceEmbeddingRec => dist r.embedding q)
    (store.filter fun r =>
      r.session_id == sid && decide (t1 ≤ 1 - dist r.embedding q))
  have hBfA :
      sortAsc (fun r : FaceEmbeddingRec => dist r.embedding q)
        (store.filter fun r =>
          r.session_id == sid && decide (t2 ≤ 1 - dist r.embedding q)) =
      (sortAsc (fun r : FaceEmbeddingRec => dist r.embedding q)
        (store.filter fun r =>
          r.session_id == sid && decide (t1 ≤ 1 - dist r.embedding q))).filter
        (fun r => decide (t2 ≤ 1 - dist r.embedding q)) := by
    rw [← hfil, sortAsc_filter]
  have hmono : ∀ u v : FaceEmbeddingRec,
      dist u.embedding q ≤ dist v.embedding q →
      decide (t2 ≤ 1 - dist v.embedding q) = true →
      decide (t2 ≤ 1 - dist u.embedding q) = true := by
    intro u v huv h
    have hv := of_decide_eq_true h
    exact decide_eq_true (by linarith)
  have hBtw :
      sortAsc (fun r : FaceEmbeddingRec => dist r.embedding q)
        (store.filter fun r =>
          r.session_id == sid && decide (t2 ≤ 1 - dist r.embedding q)) =
      (sortAsc (fun r : FaceEmbeddingRec => dist r.embedding q)
        (store.filter fun r =>
          r.session_id == sid && decide (t1 ≤ 1 - dist r.embedding q))).takeWhile
        (fun r => decide (t2 ≤ 1 - dist r.embedding q)) :=
    hBfA.trans (filter_eq_takeWhile_of_mono _ _ hmono _ hsorted)
  refine ⟨?_, ?_, ?_, ?_⟩
  · intro m hm
    simp only [queryNearest] at hm ⊢
    obtain ⟨r, hr, rfl⟩ := List.mem_map.mp hm
    refine List.mem_map_of_mem _ ?_
    rw [hBtw] at hr
    have hsplit := List.takeWhile_append_dropWhile
      (p := fun r => decide (t2 ≤ 1 - dist r.embedding q))
      (l := sortAsc (fun r : FaceEmbeddingRec => dist r.embedding q)
        (store.filter fun r =>
          r.session_id == sid && decide (t1 ≤ 1 - dist r.embedding q)))
    rw [← hsplit, List.take_append_eq_append_take]
    exact List.mem_append_left _ hr
  · intro m hm
    simp only [queryNearest] at hm
    obtain ⟨r, hr, rfl⟩ := List.mem_map.mp hm
    have hrA := List.take_subset lim _ hr
    have hrF := (mem_sortAsc (fun r : FaceEmbeddingRec => dist r.embedding q)
      r _).mp hrA
    have hp := List.of_mem_filter hrF
    simp only [Bool.and_eq_true, decide_eq_true_eq] at hp
    exact hp.2
  · simp only [queryNearest]
    refine List.pairwise_map.mpr ?_
    refine List.Pairwise.imp ?_
      (hsorted.sublist (List.take_sublist lim _))
    intro a b hab
    dsimp only
    linarith
  · simp only [queryNearest, List.length_map, List.length_take]
    omega

/-- A toy `<=>` operator for the C8 witness: squared euclidean distance,
computable on rationals. -/
def sqDist (a b : List ℚ) : ℚ :=
  l2normSq (List.zipWith (fun x y => x - y) a b)

/-- A two-session demo store for the C8 witness. -/
def demoStore : Store :=
  [⟨"p1", "S", [1, 0], 1⟩, ⟨"p2", "S", [0, 1], 1⟩, ⟨"p3", "T", [1, 0], 1⟩]

/-- Witness for C8: the theorem applied to the demo store at thresholds
`1/2 ≤ 3/4`. -/
theorem query_nearest_threshold_monotone_sorted_witness :
    (1 : ℚ) / 2 ≤ 3 / 4 ∧
    ((∀ m ∈ queryNearest demoStore "S" sqDist [1, 0] (3 / 4) 5,
        m ∈ queryNearest demoStore "S" sqDist [1, 0] (1 / 2) 5) ∧
      (∀ m ∈ queryNearest demoStore "S" sqDist [1, 0] (1 / 2) 5,
        (1 : ℚ) / 2 ≤ m.2) ∧
      (queryNearest demoStore "S" sqDist [1, 0] (1 / 2) 5).Pairwise
        (fun m1 m2 => m2.2 ≤ m1.2) ∧
      (queryNearest demoStore "S" sqDist [1, 0] (1 / 2) 5).length ≤ 5) :=
  ⟨by norm_num,
    query_nearest_threshold_monotone_sorted demoStore "S" sqDist [1, 0]
      (1 / 2) (3 / 4) 5 (by norm_num)⟩

/-- Python `str.lower()`. -/
def lowerStr (s : String) : String :=
  String.mk (s.data.map Char.toLower)

/-- The extension extraction in `scan_session_photos`
(`services/photo_indexing.py:126`):
`'.' + obj_key.lower().split('.')[-1] if '.' in obj_key else ''`. -/
def extOf (key : String) : String :=
  if key.data.any (fun c => c == '.') then
    String.mk ('.' :: (splitOnChar '.' (lowerStr key).data).getLastD [])
  else ""

/-- The extension set of `scan_session_photos`
(`services/photo_indexing.py:121`). -/
def imageExtensions : List String :=
  [".jpg", ".jpeg", ".png", ".webp", ".bmp", ".tiff"]

def isImageKey (k : String) : Bool :=
  imageExtensions.contains (extOf k)

/-- Result of the S3 listing for a session, after the prefix probing of
`get_session_s3_prefixes` / `scan_session_photos`
(`services/photo_indexing.py:32-119`): the object keys found under the
first non-empty candidate prefix (possibly `[]`), or an `S3Error`.  The
prefix probing itself is environment interaction, so its outcome is
supplied as a value. -/
inductive ScanOutcome where
  | err (msg : String)
  | ok (objs : List String)
  deriving Repr, DecidableEq

/-- `PhotoIndexingService.scan_session_photos`
(`services/photo_indexing.py:66-139`): propagate the S3 failure,
otherwise keep only keys with a known image extension. -/
def scan_session_photos (sc : ScanOutcome) : Except String (List String) :=
  match sc with
  | .err m => .error m
  | .ok objs => .ok (objs.filter isImageKey)

/-- The per-photo loop of `index_session_photos`
(`services/photo_indexing.py:322-352`): every key is processed through
`process_single_photo`; `(processed, success, errors)` accumulate and a
failing photo never stops the loop. -/
def indexSessionLoop (sid : String) (fetchFor : String → FetchOutcome) :
    List String → Store → (ℕ × ℕ × List String) × Store
  | [], store => ((0, 0, []), store)
  | k :: ks, store =>
    let step := process_single_photo k sid (fetchFor k) store
    let recCall := indexSessionLoop sid fetchFor ks step.2
    if step.1.1 then
      ((recCall.1.1 + 1, recCall.1.2.1 + 1, recCall.1.2.2), recCall.2)
    else
      ((recCall.1.1 + 1, recCall.1.2.1,
        (k ++ ": " ++ step.1.2.getD "None") :: recCall.1.2.2), recCall.2)

/-- `PhotoIndexingService.index_session_photos`
(`services/photo_indexing.py:277-357`): service-readiness check, scan,
safety cap (`photo_keys[:max_photos]`), then the per-photo loop. -/
def index_session_photos (sid : String) (ready : Bool) (sc : ScanOutcome)
    (fetchFor : String → FetchOutcome) (maxPhotos : ℕ) (store : Store) :
    (ℕ × ℕ × List String) × Store :=
  if !ready then
    ((0, 0, ["Face recognition service not initialized"]), store)
  else
    match scan_session_photos sc with
    | .error m => ((0, 0, ["Failed to scan S3 photos: " ++ m]), store)
    | .ok keys =>
      if keys.isEmpty then ((0, 0, []), store)
      else indexSessionLoop sid fetchFor (keys.take maxPhotos) store

/-- `Store.count(session_id)`: the number of stored rows for a session. -/
def countSession (store : Store) (sid : String) : ℕ :=
  (store.filter fun r => r.session_id == sid).length

/-- `PhotoIndexingService.check_session_indexed`
(`services/photo_indexing.py:359-382`): `(count > 0, count)`. -/
def check_session_indexed (sid : String) (store : Store) : Bool × ℕ :=
  (decide (0 < countSession store sid), countSession store sid)

/-- Observable outcome of the `/search-session` endpoint: an
`HTTPException`, an empty-match JSON body (message plus optional
`indexing_status`), or a match list with the session statistics the
response carries. -/
inductive SearchOutcome where
  | httpError (code : ℕ) (detail : String)
  | emptyMatches (message : String) (indexingStatus : Option String)
  | results (matchList : List (String × ℚ)) (indexedPhotos : ℕ)
      (searchThreshold : ℚ)
  deriving Repr, DecidableEq

/-- Environment of one `/search-session` request: every external
interaction the endpoint performs, as values.  `norm2` is the norm used
by the (duplicated) second normalization block of the endpoint. -/
structure SearchEnv where
  session_id : String
  sessionRow : Option PhotoSessionRec
  contentTypeIsImage : Bool
  extract : ExtractOutcome
  norm2 : ℚ
  faceServiceReady : Bool
  scan : ScanOutcome
  fetchFor : String → FetchOutcome
  store : Store
  dist : List ℚ → List ℚ → ℚ

/-- The query tail of the endpoint (`endpoints/faces.py:524-710`): run
the pgvector query; an empty match list yields the explicit
"No matching faces" body, otherwise the matches are returned with the
session's (post-indexing) embedding count and the effective threshold.
The Pixora metadata join of lines 612-688 enriches the match entries and
is outside this model. -/
def runSessionQuery (store : Store) (sid : String)
    (dist : List ℚ → List ℚ → ℚ) (q : List ℚ) (threshold : ℚ)
    (lim : ℕ) : SearchOutcome :=
  let ms := queryNearest store sid dist q threshold lim
  if ms.isEmpty then
    .emptyMatches "No matching faces found in this session" none
  else .results ms (countSession store sid) threshold

/-- The `/search-session` endpoint `search_faces_in_session`
(`endpoints/faces.py:271-714`): session validation (404 / 403), file-type
check, selfie extraction (no-face short-circuit), double normalization,
auto-indexing when the session has no stored embeddings (with the
`no_photos` / `indexing_failed` empty results), then the nearest-neighbor
query. -/
def search_faces_in_session (env : SearchEnv) (threshold : ℚ)
    (lim : ℕ) : SearchOutcome :=
  match env.sessionRow with
  | none => .httpError 404 "Session not found"
  | some s =>
    if !is_facepass_active s then
      .httpError 403 "FacePass is not enabled for this session"
    else if !env.contentTypeIsImage then
      .httpError 400 "File must be an image"
    else
      match env.extract with
      | .exc isVal msg => .httpError (if isVal then 400 else 500) msg
      | .noFace => .emptyMatches "No face detected in uploaded image" none
      | .ok emb _conf n =>
        let q := normalizeWithNorm (normalizeWithNorm emb n) env.norm2
        if !(check_session_indexed env.session_id env.store).1 then
          match scan_session_photos env.scan with
          | .error m =>
            .emptyMatches ("Error scanning photos: " ++ m) (some "scan_error")
          | .ok keys =>
            if keys.length = 0 then
              .emptyMatches "No photos found in this session" (some "no_photos")
            else
              let res := index_session_photos env.session_id
                env.faceServiceReady env.scan env.fetchFor
                (min keys.length 300) env.store
              if res.1.2.1 = 0 then
                .emptyMatches
                  ("No photos could be indexed for this session. Processed "
                    ++ toString res.1.1 ++ " photos.")
                  (some "indexing_failed")
              else runSessionQuery res.2 env.session_id env.dist q threshold lim
        else runSessionQuery env.store env.session_id env.dist q threshold lim

/-- C5.  The search endpoint distinguishes a nonexistent session (404,
"Session not found") from an existing session with FacePass disabled
(403, "FacePass is not enabled for this session"), and the two outcomes
are distinct values — never conflated. -/
theorem search_session_not_found_vs_disabled (env : SearchEnv) (t : ℚ)
    (lim : ℕ) :
    (env.sessionRow = none →
      search_faces_in_session env t lim = .httpError 404 "Session not found") ∧
    (∀ s : PhotoSessionRec, env.sessionRow = some s →
      is_facepass_active s = false →
      search_faces_in_session env t lim =
        .httpError 403 "FacePass is not enabled for this session") ∧
    SearchOutcome.httpError 404 "Session not found" ≠
      SearchOutcome.httpError 403 "FacePass is not enabled for this session" := by
  refine ⟨?_, ?_, by decide⟩
  · intro h
    simp [search_faces_in_session, h]
  · intro s hs hact
    simp [search_faces_in_session, hs, hact]

/-- A baseline request environment for witnesses. -/
def envBase : SearchEnv :=
  ⟨"S", none, true, .noFace, 1, true, .ok [], fun _ => .faces [], [],
    fun _ _ => 0⟩

/-- An existing session row with FacePass enabled. -/
def activeSession : PhotoSessionRec := ⟨"Session", true⟩

/-- Witness for C5: a missing session row yields 404 and a disabled
session row yields 403. -/
theorem search_session_not_found_vs_disabled_witness :
    (envBase.sessionRow = none ∧
      search_faces_in_session envBase (7 / 10) 50 =
        .httpError 404 "Session not found") ∧
    (is_facepass_active ⟨"n", false⟩ = false ∧
      search_faces_in_session { envBase with sessionRow := some ⟨"n", false⟩ }
          (7 / 10) 50 =
        .httpError 403 "FacePass is not enabled for this session") :=
  ⟨⟨rfl, (search_session_not_found_vs_disabled envBase (7 / 10) 50).1 rfl⟩,
   ⟨rfl, (search_session_not_found_vs_disabled
      { envBase with sessionRow := some ⟨"n", false⟩ } (7 / 10) 50).2.1
      ⟨"n", false⟩ rfl rfl⟩⟩

/-- C6.  For a valid request on an enabled session whose selfie contains
no detectable face, the endpoint returns the successful empty-match body
with the "No face detected in uploaded image" message — never an
HTTPException — whatever the indexed state of the session (the store is
arbitrary). -/
theorem search_session_no_face_empty_result (env : SearchEnv) (t : ℚ)
    (lim : ℕ) (s : PhotoSessionRec) (hrow : env.sessionRow = some s)
    (hact : is_facepass_active s = true)
    (hct : env.contentTypeIsImage = true)
    (hx : env.extract = .noFace) :
    search_faces_in_session env t lim =
      .emptyMatches "No face detected in uploaded image" none ∧
    ∀ (c : ℕ) (d : String),
      search_faces_in_session env t lim ≠ .httpError c d := by
  have h1 : search_faces_in_session env t lim =
      .emptyMatches "No face detected in uploaded image" none := by
    simp [search_faces_in_session, hrow, hact, hct, hx]
  refine ⟨h1, fun c d h => ?_⟩
  rw [h1] at h
  exact SearchOutcome.noConfusion h

/-- Witness for C6: the no-face result on a never-indexed session and on
a session with one stored embedding. -/
theorem search_session_no_face_empty_result_witness :
    (search_faces_in_session { envBase with sessionRow := some activeSession }
        (7 / 10) 50 =
      .emptyMatches "No face detected in uploaded image" none) ∧
    (countSession [⟨"p1", "S", [1], 1⟩] "S" = 1 ∧
      search_faces_in_session
          { envBase with
            sessionRow := some activeSession
            store := [⟨"p1", "S", [1], 1⟩] } (7 / 10) 50 =
        .emptyMatches "No face detected in uploaded image" none) :=
  ⟨(search_session_no_face_empty_result
      { envBase with sessionRow := some activeSession } (7 / 10) 50
      activeSession rfl rfl rfl rfl).1,
   rfl,
   (search_session_no_face_empty_result
      { envBase with
        sessionRow := some activeSession
        store := [⟨"p1", "S", [1], 1⟩] } (7 / 10) 50
      activeSession rfl rfl rfl rfl).1⟩

/-- C2.  When the session's stored-embedding count is zero, the endpoint
scans and indexes inline before querying: a scan with zero photos ends in
the `no_photos` empty-match body; indexing with zero successes ends in
the `indexing_failed` empty-match body (with the processed count in the
message); and with at least one success the nearest-neighbor query runs
against the post-indexing store — none of these paths fails the
request. -/
theorem search_session_auto_indexing (env : SearchEnv) (t : ℚ) (lim : ℕ)
    (s : PhotoSessionRec) (emb : List ℚ) (conf n : ℚ)
    (hrow : env.sessionRow = some s) (hact : is_facepass_active s = true)
    (hct : env.contentTypeIsImage = true)
    (hx : env.extract = .ok emb conf n)
    (hcnt : countSession env.store env.session_id = 0) :
    (∀ keys, env.scan = .ok keys → keys.filter isImageKey = [] →
      search_faces_in_session env t lim =
        .emptyMatches "No photos found in this session" (some "no_photos")) ∧
    (∀ keys, env.scan = .ok keys → keys.filter isImageKey ≠ [] →
      (index_session_photos env.session_id env.faceServiceReady env.scan
        env.fetchFor (min (keys.filter isImageKey).length 300)
        env.store).1.2.1 = 0 →
      search_faces_in_session env t lim =
        .emptyMatches
          ("No photos could be indexed for this session. Processed "
            ++ toString (index_session_photos env.session_id
                env.faceServiceReady env.scan env.fetchFor
                (min (keys.filter isImageKey).length 300) env.store).1.1
            ++ " photos.")
          (some "indexing_failed")) ∧
    (∀ keys, env.scan = .ok keys → keys.filter isImageKey ≠ [] →
      (index_session_photos env.session_id env.faceServiceReady env.scan
        env.fetchFor (min (keys.filter isImageKey).length 300)
        env.store).1.2.1 ≠ 0 →
      search_faces_in_session env t lim =
        runSessionQuery
          (index_session_photos env.session_id env.faceServiceReady env.scan
            env.fetchFor (min (keys.filter isImageKey).length 300)
            env.store).2
          env.session_id env.dist
          (normalizeWithNorm (normalizeWithNorm emb n) env.norm2) t lim) := by
  have hidx : (check_session_indexed env.session_id env.store).1 = false := by
    simp [check_session_indexed, hcnt]
  refine ⟨?_, ?_, ?_⟩
  · intro keys hscan hfil
    simp [search_faces_in_session, hrow, hact, hct, hx, hidx,
      scan_session_photos, hscan, hfil]
  · intro keys hscan hfil hsucc
    have hlen : (keys.filter isImageKey).length ≠ 0 :=
      fun h => hfil (List.length_eq_zero.mp h)
    rw [hscan] at hsucc
    simp [search_faces_in_session, hrow, hact, hct, hx, hidx,
      scan_session_photos, hscan, hlen, hsucc]
  · intro keys hscan hfil hsucc
    have hlen : (keys.filter isImageKey).length ≠ 0 :=
      fun h => hfil (List.length_eq_zero.mp h)
    rw [hscan] at hsucc
    simp [search_faces_in_session, hrow, hact, hct, hx, hidx,
      scan_session_photos, hscan, hlen, hsucc]

/-- Auto-index witness environment: never-indexed session, scan finds no
objects. -/
def envAutoNoPhotos : SearchEnv :=
  { envBase with
    sessionRow := some activeSession
    extract := .ok [1, 0] (9 / 10) 1 }

/-- Auto-index witness environment: one scanned photo whose download
times out, so indexing yields zero successes. -/
def envAutoFail : SearchEnv :=
  { envBase with
    sessionRow := some activeSession
    extract := .ok [1, 0] (9 / 10) 1
    scan := .ok ["1769586652601-3880.jpg"]
    fetchFor := fun _ => .dlFail "timeout" }

/-- Witness for C2: the `no_photos` and `indexing_failed` outcomes on
concrete never-indexed environments. -/
theorem search_session_auto_indexing_witness :
    (search_faces_in_session envAutoNoPhotos (7 / 10) 50 =
      .emptyMatches "No photos found in this session" (some "no_photos")) ∧
    (search_faces_in_session envAutoFail (7 / 10) 50 =
      .emptyMatches
        ("No photos could be indexed for this session. Processed "
          ++ toString (index_session_photos envAutoFail.session_id
              envAutoFail.faceServiceReady envAutoFail.scan
              envAutoFail.fetchFor
              (min ((["1769586652601-3880.jpg"].filter isImageKey).length) 300)
              envAutoFail.store).1.1
          ++ " photos.")
        (some "indexing_failed")) :=
  ⟨(search_session_auto_indexing envAutoNoPhotos (7 / 10) 50 activeSession
      [1, 0] (9 / 10) 1 rfl rfl rfl rfl rfl).1 [] rfl rfl,
   (search_session_auto_indexing envAutoFail (7 / 10) 50 activeSession
      [1, 0] (9 / 10) 1 rfl rfl rfl rfl rfl).2.1
      ["1769586652601-3880.jpg"] rfl (by decide) (by decide)⟩
